import Mathlib

/-!
Verification of the Gemini model auto-selection and retry orchestration in
src/api/answer-question.ts (the GenerationOrchestrator core).

The TypeScript code is shallowly embedded as pure Lean functions.  All
upstream HTTP traffic is abstracted into an oracle (`Upstream`) that maps
each would-be HTTP attempt to its observed outcome; the orchestration logic
itself (retry loop, backoff computation, catalog filtering, candidate
ranking, error classification, version fallback) is translated directly
from the source.  JavaScript string predicates used by the source
(String.prototype.includes, the emptiness test text.trim() === '') are
embedded as executable character-list functions; whitespace is the ASCII
whitespace set recognized by Char.isWhitespace.
-/

namespace AnswerQuestion

/-- The two Gemini REST API versions, tried in this fixed order
(answer-question.ts line 335, the array literal in the for loop). -/
inductive GeminiApiVersion where
  | v1beta
  | v1
deriving DecidableEq, Repr

/-- Printable name of an API version, as interpolated into URLs and error
messages by the source. -/
def versionName : GeminiApiVersion → String
  | .v1beta => "v1beta"
  | .v1 => "v1"

/-- A catalog entry (type GeminiModel, answer-question.ts lines 180-183).
Both fields are optional in the source; a missing or non-array
supportedGenerationMethods is `none`. -/
structure GeminiModel where
  name : Option String
  supportedGenerationMethods : Option (List String)
deriving DecidableEq, Repr

/-- Outcome of one HTTP attempt as observed by the orchestrator: either a
response (with status code and raw body text) or a thrown transport error
(timeout / network failure), carrying its message. -/
inductive AttemptOutcome where
  | response (status : Nat) (raw : String)
  | transportError (msg : String)
deriving DecidableEq, Repr

/-- Result of the retry loop: the response it returned, or the error it
rethrew (postJsonWithRetry either returns resp/raw or throws lastErr). -/
inductive RetryResult where
  | returned (status : Nat) (raw : String)
  | thrown (msg : String)
deriving DecidableEq, Repr

/-- Fetch-API resp.ok: status in the 2xx range. -/
def respOk (status : Nat) : Bool :=
  200 ≤ status && status ≤ 299

/-- isRetryableStatus (answer-question.ts lines 207-210). -/
def isRetryableStatus (status : Nat) : Bool :=
  status == 429 || status == 500 || status == 502 || status == 503 || status == 504

/-- The retry loop of postJsonWithRetry (answer-question.ts lines 212-250),
with the loop index i and the remaining budget retries - i carried as fuel
(the loop guard i < retries is exactly fuel > 0).  Returns the terminal
result together with the list of backoff waits performed, in order; after a
retryable failure of attempt i the source waits 800 * 2 ^ i ms.  The
source's single conditional (retryable status AND i < retries) is split
into the two nested tests below, with identical else results. -/
def postJsonWithRetryGo (outcomes : Nat → AttemptOutcome) (i fuel : Nat) :
    RetryResult × List Nat :=
  match outcomes i with
  | .response status raw =>
    if respOk status then (.returned status raw, [])
    else
      match fuel with
      | 0 => (.returned status raw, [])
      | fuel' + 1 =>
        if isRetryableStatus status then
          let r := postJsonWithRetryGo outcomes (i + 1) fuel'
          (r.1, 800 * 2 ^ i :: r.2)
        else (.returned status raw, [])
  | .transportError msg =>
    match fuel with
    | 0 => (.thrown msg, [])
    | fuel' + 1 =>
      let r := postJsonWithRetryGo outcomes (i + 1) fuel'
      (r.1, 800 * 2 ^ i :: r.2)

/-- postJsonWithRetry (answer-question.ts lines 212-250): run the attempt
sequence starting at attempt 0 with the given retry budget. -/
def postJsonWithRetry (outcomes : Nat → AttemptOutcome) (retries : Nat) :
    RetryResult × List Nat :=
  postJsonWithRetryGo outcomes 0 retries

/-- An attempt outcome is retryable when it is a thrown transport error, or
a non-2xx response whose status is in the retryable set. -/
def attemptRetryable : AttemptOutcome → Bool
  | .response status _ => !respOk status && isRetryableStatus status
  | .transportError _ => true

/-- The result the loop produces when it stops at a given attempt: a
response is returned as-is, a transport error is rethrown. -/
def attemptResult : AttemptOutcome → RetryResult
  | .response status raw => .returned status raw
  | .transportError msg => .thrown msg

/-- pat is a leading segment of the character list. -/
def leadsWith : List Char → List Char → Bool
  | [], _ => true
  | _ :: _, [] => false
  | p :: ps, c :: cs => p == c && leadsWith ps cs

/-- pat occurs contiguously somewhere in the character list. -/
def occursIn (pat : List Char) : List Char → Bool
  | [] => pat.isEmpty
  | c :: cs => leadsWith pat (c :: cs) || occursIn pat cs

/-- JavaScript String.prototype.includes: pat occurs as a substring of s. -/
def strContains (s pat : String) : Bool :=
  occursIn pat.data s.data

/-- The source's emptiness test text.trim() === '' : every character of the
string is whitespace (equivalently, trimming leaves the empty string). -/
def isBlank (s : String) : Bool :=
  s.data.all (fun c => c.isWhitespace)

/-- isGeminiNotFoundOrUnsupported (answer-question.ts lines 288-291):
substring classification of an error message as a model/version mismatch. -/
def isGeminiNotFoundOrUnsupported (errMsg : String) : Bool :=
  strContains errMsg ": 404" || strContains errMsg "\"code\": 404" ||
    strContains errMsg "NOT_FOUND" || strContains errMsg "not supported"

/-- shortModelName (answer-question.ts lines 255-257): strip one leading
"models/" namespace prefix from a catalog name. -/
def shortModelName (fullName : String) : String :=
  if leadsWith "models/".data fullName.data then String.mk (fullName.data.drop 7)
  else fullName

/-- modelSupportsGenerateContent (answer-question.ts lines 259-264): a
missing or empty capability list means "try it". -/
def modelSupportsGenerateContent (m : GeminiModel) : Bool :=
  match m.supportedGenerationMethods with
  | none => true
  | some methods => if methods.isEmpty then true else methods.contains "generateContent"

/-- Timeout passed to fetchWithTimeout by listModels
(answer-question.ts line 276). -/
def listTimeoutMs : Nat := 15000

/-- Timeout passed to postJsonWithRetry by generateContent
(answer-question.ts line 313). -/
def generateTimeoutMs : Nat := 30000

/-- Retry budget passed to postJsonWithRetry by generateContent
(answer-question.ts line 314). -/
def generateRetries : Nat := 3

/-- The oracle describing everything the orchestrator can observe from the
upstream service for one fixed (apiKey, prompt) pair:
* listFetch version timeoutMs attemptIdx — outcome of a catalog-listing
  HTTP attempt (listModels performs exactly one, at index 0);
* parseModels raw — JSON.parse of a listing body followed by the models
  field access: .error m models a JSON.parse throw, .ok none a parsed body
  whose models field is missing or not an array, .ok (some ms) the array;
* genFetch version model timeoutMs attemptIdx — outcome of one
  generate-content HTTP attempt for that version/model;
* extractText raw — JSON.parse of a generation body followed by the
  optional-chain candidates[0].content.parts[0].text access: .error m a
  JSON.parse throw, .ok none a missing/non-string text field,
  .ok (some t) the string t. -/
structure Upstream where
  listFetch : GeminiApiVersion → Nat → Nat → AttemptOutcome
  parseModels : String → Except String (Option (List GeminiModel))
  genFetch : GeminiApiVersion → String → Nat → Nat → AttemptOutcome
  extractText : String → Except String (Option String)

/-- Error message thrown by listModels on a non-2xx status
(answer-question.ts line 281). -/
def listFailMsg (version : GeminiApiVersion) (status : Nat) (raw : String) : String :=
  "ListModels failed (" ++ versionName version ++ "): " ++ toString status ++ " " ++ raw

/-- listModels (answer-question.ts lines 266-286): one fetch with the
15-second timeout (no retry), throw on non-2xx, otherwise parse the body
and return the models array (missing/non-array yields []). -/
def listModels (env : Upstream) (version : GeminiApiVersion) :
    Except String (List GeminiModel) :=
  match env.listFetch version listTimeoutMs 0 with
  | .transportError msg => .error msg
  | .response status raw =>
    if respOk status then
      match env.parseModels raw with
      | .error msg => .error msg
      | .ok none => .ok []
      | .ok (some ms) => .ok ms
    else .error (listFailMsg version status raw)

/-- Error message thrown by generateContent on a non-2xx final response
(answer-question.ts line 318). -/
def genFailMsg (version : GeminiApiVersion) (model : String) (status : Nat)
    (raw : String) : String :=
  "Gemini generateContent failed (" ++ versionName version ++ "/" ++ model ++ "): "
    ++ toString status ++ " " ++ raw

/-- Error message thrown by generateContent on a 2xx response whose text
field is missing, non-string, or whitespace-only
(answer-question.ts line 325). -/
def geminiEmptyMsg (version : GeminiApiVersion) (model : String) (raw : String) : String :=
  "Gemini response is empty (" ++ versionName version ++ "/" ++ model ++ "). raw=" ++ raw

/-- generateContent (answer-question.ts lines 293-329): POST through the
retry loop with the 30-second timeout and 3 retries; throw on a non-2xx
final response; extract the generated text and reject a missing, non-string
or whitespace-only text field. -/
def generateContent (env : Upstream) (version : GeminiApiVersion) (model : String) :
    Except String String :=
  match postJsonWithRetry (env.genFetch version model generateTimeoutMs) generateRetries with
  | (.thrown msg, _) => .error msg
  | (.returned status raw, _) =>
    if respOk status then
      match env.extractText raw with
      | .error msg => .error msg
      | .ok none => .error (geminiEmptyMsg version model raw)
      | .ok (some text) =>
        if isBlank text then .error (geminiEmptyMsg version model raw) else .ok text
    else .error (genFailMsg version model status raw)

/-- The fixed preference list (answer-question.ts line 333). -/
def preferredModels : List String :=
  ["gemini-2.5-flash", "gemini-2.0-flash", "gemini-2.0-flash-001", "gemini-2.0-flash-lite"]

/-- available (answer-question.ts lines 344-347): bare names of catalog
entries with a string name, dropping names that become empty (JavaScript
truthiness of the string). -/
def availableOf (models : List GeminiModel) : List String :=
  ((models.filter (fun m => m.name.isSome)).map
      (fun m => shortModelName (m.name.getD ""))).filter
    (fun n => !(n == ""))

/-- generateCapable (answer-question.ts lines 349-353): bare names of
catalog entries with a string name that pass the capability predicate.
The source stores them in a Set used only through .size and .has, which a
list models faithfully. -/
def generateCapableOf (models : List GeminiModel) : List String :=
  (models.filter (fun m => m.name.isSome && modelSupportsGenerateContent m)).map
    (fun m => shortModelName (m.name.getD ""))

/-- The candidate-accumulation loops (answer-question.ts lines 356-358):
push each element not already present, in order. -/
def pushUnique (cands : List String) : List String → List String
  | [] => cands
  | a :: rest =>
    if cands.contains a then pushUnique cands rest
    else pushUnique (cands ++ [a]) rest

/-- Candidate order for one catalog: preferred names present in available,
in preference order, then the remaining available names in catalog order. -/
def buildCandidates (available : List String) : List String :=
  pushUnique (preferredModels.filter (fun p => available.contains p)) available

/-- The capability skip test (answer-question.ts line 361): skip a
candidate when generateCapable is non-empty and does not contain it. -/
def skipsCandidate (generateCapable : List String) (model : String) : Bool :=
  decide (generateCapable.length > 0) && !(generateCapable.contains model)

/-- A successful selection: the (version, model) pair that worked and the
generated text (the record returned at answer-question.ts line 365). -/
structure GenerationSuccess where
  version : GeminiApiVersion
  model : String
  text : String
deriving DecidableEq, Repr

/-- The catch clause of the candidate loop (answer-question.ts
lines 366-375): on success wrap the selection; on failure continue with
the remaining candidates when the message classifies as a mismatch,
otherwise rethrow (abort the whole selection). -/
def handleGenResult (version : GeminiApiVersion) (model : String)
    (res : Except String String)
    (onMismatch : Except String (Option GenerationSuccess)) :
    Except String (Option GenerationSuccess) :=
  match res with
  | .ok text => .ok (some ⟨version, model, text⟩)
  | .error msg =>
    if isGeminiNotFoundOrUnsupported msg then onMismatch else .error msg

/-- The candidate loop (answer-question.ts lines 360-376).  .ok (some s) is
a successful return, .ok none falls through to the next version, .error is
a rethrown fatal error. -/
def tryCandidates (env : Upstream) (version : GeminiApiVersion)
    (generateCapable : List String) :
    List String → Except String (Option GenerationSuccess)
  | [] => .ok none
  | model :: rest =>
    if skipsCandidate generateCapable model then
      tryCandidates env version generateCapable rest
    else
      handleGenResult version model (generateContent env version model)
        (tryCandidates env version generateCapable rest)

/-- One iteration of the version loop (answer-question.ts lines 335-376):
a listing failure is caught, logged and skipped (.ok none); otherwise the
catalog is filtered, ranked and the candidate loop runs. -/
def tryVersion (env : Upstream) (version : GeminiApiVersion) :
    Except String (Option GenerationSuccess) :=
  match listModels env version with
  | .error _ => .ok none
  | .ok models =>
    tryCandidates env version (generateCapableOf models)
      (buildCandidates (availableOf models))

/-- The exhaustion error (answer-question.ts line 379). -/
def noWorkingModelMsg : String :=
  "No working Gemini model found (checked v1beta/v1)."

/-- The version loop (answer-question.ts lines 335-379). -/
def tryVersions (env : Upstream) : List GeminiApiVersion → Except String GenerationSuccess
  | [] => .error noWorkingModelMsg
  | v :: rest =>
    match tryVersion env v with
    | .error msg => .error msg
    | .ok (some sel) => .ok sel
    | .ok none => tryVersions env rest

/-- generateWithAutoPick (answer-question.ts lines 331-380) for a fixed
(apiKey, prompt) pair whose upstream observations are env. -/
def generateWithAutoPick (env : Upstream) : Except String GenerationSuccess :=
  tryVersions env [.v1beta, .v1]

/-! ### Concrete upstream oracles used to instantiate the theorems -/

/-- A sample attempt sequence: a retryable 503, a transport error, then a
success. -/
def sampleOutcomes : Nat → AttemptOutcome
  | 0 => .response 503 "busy"
  | 1 => .transportError "reset"
  | _ => .response 200 "done"

/-- A two-model catalog, both entries advertising generateContent. -/
def modelsAlphaBeta : List GeminiModel :=
  [⟨some "models/alpha", some ["generateContent"]⟩,
   ⟨some "models/beta", some ["generateContent"]⟩]

/-- An upstream whose first candidate answers HTTP 200 with no generated
text while the second candidate would answer successfully. -/
def envEmptyAbort : Upstream where
  listFetch := fun v _ _ =>
    match v with
    | .v1beta => .response 200 "catalog"
    | .v1 => .transportError "net down"
  parseModels := fun raw => if raw == "catalog" then .ok (some modelsAlphaBeta) else .ok none
  genFetch := fun _ model _ _ =>
    if model == "alpha" then .response 200 "empty-body" else .response 200 "full-body"
  extractText := fun raw => if raw == "full-body" then .ok (some "hello") else .ok none

/-- An upstream whose first candidate fails with HTTP 403 but whose body
happens to contain the character sequence ": 404", while the second
candidate would answer successfully. -/
def envMarker403 : Upstream where
  listFetch := fun v _ _ =>
    match v with
    | .v1beta => .response 200 "catalog"
    | .v1 => .transportError "net down"
  parseModels := fun raw => if raw == "catalog" then .ok (some modelsAlphaBeta) else .ok none
  genFetch := fun _ model _ _ =>
    if model == "alpha" then .response 403 "quota: 4040 exceeded"
    else .response 200 "full-body"
  extractText := fun raw => if raw == "full-body" then .ok (some "hello") else .ok none

/-- An upstream whose first candidate fails with a marker-free HTTP 403
body. -/
def envAuth403 : Upstream where
  listFetch := fun _ _ _ => .transportError "unused"
  parseModels := fun _ => .ok none
  genFetch := fun _ model _ _ =>
    if model == "alpha" then .response 403 "permission denied"
    else .response 200 "full-body"
  extractText := fun raw => if raw == "full-body" then .ok (some "hello") else .ok none

/-- An upstream that always answers catalog listings with HTTP 503. -/
def envList503 : Upstream where
  listFetch := fun _ _ _ => .response 503 "busy"
  parseModels := fun _ => .ok none
  genFetch := fun _ _ _ _ => .transportError "unused"
  extractText := fun _ => .ok none

/-- An upstream whose primary-version listing fails on the network while
the secondary version works. -/
def envSecondary : Upstream where
  listFetch := fun v _ _ =>
    match v with
    | .v1beta => .transportError "net down"
    | .v1 => .response 200 "catalog"
  parseModels := fun raw =>
    if raw == "catalog" then .ok (some [⟨some "models/gamma", none⟩]) else .ok none
  genFetch := fun _ _ _ _ => .response 200 "full-body"
  extractText := fun raw => if raw == "full-body" then .ok (some "hello") else .ok none

/-- An upstream whose listings fail on both versions: an auth-style 403 on
the primary version and a transport error on the secondary one. -/
def envListFailBoth : Upstream where
  listFetch := fun v _ _ =>
    match v with
    | .v1beta => .response 403 "key denied"
    | .v1 => .transportError "timeout"
  parseModels := fun _ => .ok none
  genFetch := fun _ _ _ _ => .transportError "unused"
  extractText := fun _ => .ok none

/-- A featureless upstream used where the theorem being instantiated does
not depend on the upstream's behaviour. -/
def idleUpstream : Upstream where
  listFetch := fun _ _ _ => .transportError "idle"
  parseModels := fun _ => .ok none
  genFetch := fun _ _ _ _ => .transportError "idle"
  extractText := fun _ => .ok none

/-- A one-model catalog whose entry has no supportedGenerationMethods
field. -/
def catalogNoMethods : List GeminiModel := [⟨some "models/plain", none⟩]

/-- A one-model catalog whose entry has an empty supportedGenerationMethods
array. -/
def catalogEmptyMethods : List GeminiModel := [⟨some "models/bare", some []⟩]

/-- A catalog name list mixing one preferred name with two non-preferred
ones. -/
def sampleCatalogNames : List String := ["delta", "gemini-2.0-flash", "echo"]

/-! ### Substring lemmas -/

lemma leadsWith_self_append (p r : List Char) : leadsWith p (p ++ r) = true := by
  induction p with
  | nil => rfl
  | cons c cs ih => simp [leadsWith, ih]

lemma occursIn_cons (pat : List Char) (c : Char) (l : List Char)
    (h : occursIn pat l = true) : occursIn pat (c :: l) = true := by
  simp [occursIn, h]

lemma occursIn_append_right (pat l1 l2 : List Char)
    (h : occursIn pat l2 = true) : occursIn pat (l1 ++ l2) = true := by
  induction l1 with
  | nil => simpa using h
  | cons c cs ih => exact occursIn_cons _ _ _ ih

lemma occursIn_self_append (pat r : List Char) : occursIn pat (pat ++ r) = true := by
  cases pat with
  | nil => cases r <;> simp [occursIn, leadsWith]
  | cons p ps =>
    have h := leadsWith_self_append (p :: ps) r
    rw [List.cons_append] at h
    simp [occursIn, h]

lemma strContains_middle (a pat b : String) :
    strContains (a ++ (pat ++ b)) pat = true := by
  unfold strContains
  rw [String.data_append, String.data_append]
  exact occursIn_append_right _ _ _ (occursIn_self_append _ _)

/-- A non-2xx generate-content failure message built from status 404 always
contains the substring matched by the mismatch classifier. -/
lemma genFailMsg_404 (v : GeminiApiVersion) (model raw : String) :
    isGeminiNotFoundOrUnsupported (genFailMsg v model 404 raw) = true := by
  have hdata : genFailMsg v model 404 raw
      = ("Gemini generateContent failed (" ++ versionName v ++ "/" ++ model ++ ")")
        ++ (": 404" ++ (" " ++ raw)) := by
    apply String.ext
    simp only [genFailMsg, String.data_append, List.append_assoc]
    rfl
  rw [hdata]
  unfold isGeminiNotFoundOrUnsupported
  rw [strContains_middle]
  simp

/-! ### Retry-loop lemmas -/

/-- Behaviour of the retry loop from an arbitrary loop position: as long as
each attempt is retryable and budget remains, the loop advances, recording
the wait 800 * 2 ^ position; it stops at the first non-retryable attempt or
when the budget runs out, yielding that attempt's outcome as-is. -/
lemma postJsonWithRetryGo_spec (outcomes : Nat → AttemptOutcome) (k : Nat) :
    ∀ (i fuel : Nat), k ≤ fuel →
      (∀ j, j < k → attemptRetryable (outcomes (i + j)) = true) →
      (attemptRetryable (outcomes (i + k)) = false ∨ k = fuel) →
      postJsonWithRetryGo outcomes i fuel
        = (attemptResult (outcomes (i + k)),
           (List.range k).map (fun j => 800 * 2 ^ (i + j))) := by
  induction k with
  | zero =>
    intro i fuel _hk hre hstop
    simp only [Nat.add_zero] at hstop ⊢
    simp only [List.range_zero, List.map_nil]
    cases ho : outcomes i with
    | response status raw =>
      rw [ho] at hstop
      cases hok : respOk status with
      | true =>
        unfold postJsonWithRetryGo
        rw [ho]
        simp [hok, attemptResult]
      | false =>
        rcases hstop with hst | hst
        · simp only [attemptRetryable, hok, Bool.not_false, Bool.true_and] at hst
          unfold postJsonWithRetryGo
          rw [ho]
          cases fuel <;> simp [hok, hst, attemptResult]
        · subst hst
          unfold postJsonWithRetryGo
          rw [ho]
          simp [hok, attemptResult]
    | transportError msg =>
      rw [ho] at hstop
      rcases hstop with hst | hst
      · simp [attemptRetryable] at hst
      · subst hst
        unfold postJsonWithRetryGo
        rw [ho]
        simp [attemptResult]
  | succ k ih =>
    intro i fuel hk hre hstop
    have h0 : attemptRetryable (outcomes i) = true := by
      have := hre 0 (Nat.succ_pos k)
      simpa using this
    obtain ⟨fuel', rfl⟩ : ∃ f, fuel = f + 1 := by
      cases fuel with
      | zero => omega
      | succ f => exact ⟨f, rfl⟩
    have hrec := ih (i + 1) fuel' (by omega)
      (fun j hj => by
        have := hre (j + 1) (by omega)
        rwa [show i + (j + 1) = i + 1 + j by omega] at this)
      (by
        rcases hstop with hst | hst
        · left; rwa [show i + (k + 1) = i + 1 + k by omega] at hst
        · right; omega)
    have hwaits : (List.range (k + 1)).map (fun j => 800 * 2 ^ (i + j))
        = 800 * 2 ^ i :: (List.range k).map (fun j => 800 * 2 ^ (i + 1 + j)) := by
      rw [List.range_succ_eq_map, List.map_cons, List.map_map]
      simp only [Nat.add_zero, List.cons.injEq, true_and]
      apply List.map_congr_left
      intro j _
      simp only [Function.comp_apply]
      have h1 : i + Nat.succ j = i + 1 + j := by omega
      rw [h1]
    cases ho : outcomes i with
    | response status raw =>
      rw [ho] at h0
      have hok : respOk status = false := by
        cases h : respOk status with
        | true => rw [attemptRetryable, h] at h0; simp at h0
        | false => rfl
      have hret : isRetryableStatus status = true := by
        rw [attemptRetryable, hok] at h0; simpa using h0
      unfold postJsonWithRetryGo
      rw [ho]
      simp only [hok, hret, Bool.false_eq_true, if_false, if_true]
      rw [hrec, hwaits]
      rw [show i + (k + 1) = i + 1 + k by omega]
    | transportError msg =>
      unfold postJsonWithRetryGo
      rw [ho]
      simp only [hrec, hwaits]
      rw [show i + (k + 1) = i + 1 + k by omega]

/-- C3 main content, stated over the whole loop: if the first k attempts
are retryable and either attempt k is terminal or the budget is exhausted
at k, the loop returns attempt k's outcome as-is, and the wait before
attempt i (i-indexed from 1) is 800 * 2 ^ (i - 1). -/
lemma postJsonWithRetry_spec (outcomes : Nat → AttemptOutcome) (retries k : Nat)
    (hk : k ≤ retries)
    (hre : ∀ j, j < k → attemptRetryable (outcomes j) = true)
    (hstop : attemptRetryable (outcomes k) = false ∨ k = retries) :
    postJsonWithRetry outcomes retries
      = (attemptResult (outcomes k), (List.range k).map (fun j => 800 * 2 ^ j)) := by
  unfold postJsonWithRetry
  have := postJsonWithRetryGo_spec outcomes k 0 retries hk
    (fun j hj => by simpa using hre j hj) (by simpa using hstop)
  simpa using this

/-- The retry loop inspects only the attempts between its start position
and the end of its budget. -/
lemma postJsonWithRetryGo_congr (o1 o2 : Nat → AttemptOutcome) :
    ∀ (fuel i : Nat), (∀ j, i ≤ j → j ≤ i + fuel → o1 j = o2 j) →
      postJsonWithRetryGo o1 i fuel = postJsonWithRetryGo o2 i fuel := by
  intro fuel
  induction fuel with
  | zero =>
    intro i h
    have h0 : o1 i = o2 i := h i le_rfl (by omega)
    unfold postJsonWithRetryGo
    rw [h0]
  | succ f ih =>
    intro i h
    have h0 : o1 i = o2 i := h i le_rfl (by omega)
    have hrec : postJsonWithRetryGo o1 (i + 1) f = postJsonWithRetryGo o2 (i + 1) f :=
      ih (i + 1) (fun j hj1 hj2 => h j (by omega) (by omega))
    unfold postJsonWithRetryGo
    rw [h0]
    cases o2 i <;> simp [hrec]

/-- A generate-content call consults only the generation attempts for its
own (version, model) at the 30-second timeout, indices 0 through 3, plus
the text extraction; nothing else about the upstream matters. -/
lemma generateContent_congr (e1 e2 : Upstream) (v : GeminiApiVersion) (m : String)
    (hg : ∀ j, j ≤ generateRetries →
      e1.genFetch v m generateTimeoutMs j = e2.genFetch v m generateTimeoutMs j)
    (hx : e1.extractText = e2.extractText) :
    generateContent e1 v m = generateContent e2 v m := by
  unfold generateContent postJsonWithRetry
  rw [postJsonWithRetryGo_congr (e1.genFetch v m generateTimeoutMs)
    (e2.genFetch v m generateTimeoutMs) generateRetries 0
    (fun j h1 h2 => hg j (by omega)), hx]

/-- A catalog-listing call consults only the single listing attempt at
index 0 with the 15-second timeout, plus the body parse. -/
lemma listModels_congr (e1 e2 : Upstream) (v : GeminiApiVersion)
    (hl : e1.listFetch v listTimeoutMs 0 = e2.listFetch v listTimeoutMs 0)
    (hp : e1.parseModels = e2.parseModels) :
    listModels e1 v = listModels e2 v := by
  unfold listModels
  rw [hl, hp]

/-- A retryable status on the single listing attempt is not retried: it is
surfaced at once as the listing error. -/
lemma listModels_no_retry (env : Upstream) (v : GeminiApiVersion) (raw : String)
    (h : env.listFetch v listTimeoutMs 0 = .response 503 raw) :
    listModels env v = .error (listFailMsg v 503 raw) := by
  unfold listModels
  rw [h]
  rfl

/-! ### Candidate-order lemmas -/

lemma contains_eq_decide_mem (l : List String) (a : String) :
    l.contains a = decide (a ∈ l) := by
  simp [List.contains, List.elem_eq_mem]

/-- Running the accumulation loop over a duplicate-free catalog suffix none
of whose names were pushed by earlier loop iterations appends exactly the
names not already in the seed. -/
lemma pushUnique_append (first : List String) :
    ∀ (l extra : List String), l.Nodup → (∀ a, a ∈ l → a ∉ extra) →
      pushUnique (first ++ extra) l
        = (first ++ extra) ++ l.filter (fun a => !(first.contains a)) := by
  intro l
  induction l with
  | nil => intro extra _ _; simp [pushUnique]
  | cons a rest ih =>
    intro extra hnd hdis
    have ha : a ∉ extra := hdis a (List.mem_cons_self a rest)
    have hnd' : rest.Nodup := hnd.of_cons
    have hanr : a ∉ rest := (List.nodup_cons.mp hnd).1
    have hcont : (first ++ extra).contains a = first.contains a := by
      rw [contains_eq_decide_mem, contains_eq_decide_mem]
      simp [List.mem_append, ha]
    unfold pushUnique
    rw [hcont]
    cases hf : first.contains a with
    | true =>
      have haf : a ∈ first := by
        rwa [contains_eq_decide_mem, decide_eq_true_iff] at hf
      simp only [if_true]
      rw [ih extra hnd' (fun b hb => hdis b (List.mem_cons_of_mem a hb))]
      simp [List.filter_cons, haf]
    | false =>
      have haf : a ∉ first := by
        rw [contains_eq_decide_mem] at hf
        simpa using hf
      simp only [Bool.false_eq_true, if_false]
      have hstep : (first ++ extra) ++ [a] = first ++ (extra ++ [a]) := by
        simp [List.append_assoc]
      rw [hstep, ih (extra ++ [a]) hnd'
        (fun b hb => by
          simp only [List.mem_append, List.mem_singleton]
          rintro (hbe | rfl)
          · exact hdis b (List.mem_cons_of_mem a hb) hbe
          · exact hanr hb)]
      simp [List.filter_cons, haf, List.append_assoc]

/-- The candidate list for a duplicate-free catalog: preferred names that
are available, in preference order, then the remaining available names in
catalog order. -/
lemma buildCandidates_eq (available : List String) (hnd : available.Nodup) :
    buildCandidates available
      = preferredModels.filter (fun p => available.contains p)
        ++ available.filter
          (fun a => !((preferredModels.filter (fun p => available.contains p)).contains a)) := by
  unfold buildCandidates
  have h := pushUnique_append (preferredModels.filter (fun p => available.contains p))
    available [] hnd (by simp)
  simpa using h

/-! ### Selector step lemmas -/

/-- If attempt 0 is already terminal, the retry loop returns it with no
backoff wait. -/
lemma postJsonWithRetry_stop0 (outcomes : Nat → AttemptOutcome) (retries : Nat)
    (h : attemptRetryable (outcomes 0) = false) :
    postJsonWithRetry outcomes retries = (attemptResult (outcomes 0), []) := by
  have := postJsonWithRetry_spec outcomes retries 0 (by omega)
    (fun j hj => absurd hj (Nat.not_lt_zero j)) (Or.inl h)
  simpa using this

/-- A first-attempt response with a non-2xx, non-retryable status makes
generateContent throw the generate-failed message for that status/body. -/
lemma generateContent_fail_first (env : Upstream) (v : GeminiApiVersion)
    (m : String) (status : Nat) (raw : String)
    (hfetch : env.genFetch v m generateTimeoutMs 0 = .response status raw)
    (hok : respOk status = false) (hnr : isRetryableStatus status = false) :
    generateContent env v m = .error (genFailMsg v m status raw) := by
  unfold generateContent
  rw [postJsonWithRetry_stop0 _ _ (by rw [hfetch]; simp [attemptRetryable, hnr])]
  rw [hfetch]
  simp [attemptResult, hok]

/-- A first-attempt HTTP 200 whose body yields a missing or whitespace-only
text field makes generateContent throw the empty-response message. -/
lemma generateContent_empty (env : Upstream) (v : GeminiApiVersion)
    (m : String) (raw : String) (textOpt : Option String)
    (hfetch : env.genFetch v m generateTimeoutMs 0 = .response 200 raw)
    (hext : env.extractText raw = .ok textOpt)
    (hblank : ∀ t, textOpt = some t → isBlank t = true) :
    generateContent env v m = .error (geminiEmptyMsg v m raw) := by
  unfold generateContent
  rw [postJsonWithRetry_stop0 _ _ (by rw [hfetch]; simp [attemptRetryable, respOk])]
  rw [hfetch]
  simp only [attemptResult]
  rw [show respOk 200 = true from rfl]
  simp only [if_true]
  rw [hext]
  cases textOpt with
  | none => rfl
  | some t => simp [hblank t rfl]

/-- A catalog entry with a string name that passes the capability predicate
contributes its bare name to generateCapable. -/
lemma mem_generateCapableOf (models : List GeminiModel) (m : GeminiModel)
    (name : String) (hm : m ∈ models) (hname : m.name = some name)
    (hcap : modelSupportsGenerateContent m = true) :
    shortModelName name ∈ generateCapableOf models := by
  unfold generateCapableOf
  refine List.mem_map.mpr ⟨m, List.mem_filter.mpr ⟨hm, by simp [hname, hcap]⟩, ?_⟩
  rw [hname]
  rfl

/-- A candidate that belongs to generateCapable is never skipped by the
capability filter. -/
lemma skipsCandidate_of_mem (cap : List String) (m : String) (hm : m ∈ cap) :
    skipsCandidate cap m = false := by
  unfold skipsCandidate
  rw [contains_eq_decide_mem]
  simp [hm]

/-- A candidate that is not skipped is attempted: the candidate loop calls
generateContent on it and dispatches on the outcome. -/
lemma tryCandidates_cons_attempt (env : Upstream) (v : GeminiApiVersion)
    (cap : List String) (model : String) (rest : List String)
    (hskip : skipsCandidate cap model = false) :
    tryCandidates env v cap (model :: rest)
      = handleGenResult v model (generateContent env v model)
          (tryCandidates env v cap rest) := by
  have step : tryCandidates env v cap (model :: rest)
      = if skipsCandidate cap model = true then tryCandidates env v cap rest
        else handleGenResult v model (generateContent env v model)
          (tryCandidates env v cap rest) := rfl
  rw [step, hskip]
  simp

/-! ### Claim theorems -/

/-- C3: if the first k attempts (k at most the retry budget) are retryable
(status 429/500/502/503/504 on a non-2xx response, or a thrown transport
error), the retry loop returns the first non-retryable outcome — or, once
the budget is exhausted, the final attempt's outcome as-is, a transport
error being rethrown — and the backoff wait recorded before attempt i
(0-indexed, i at least 1) is exactly 800 * 2 ^ (i - 1) time units. -/
theorem retrier_first_terminal_and_backoff (outcomes : Nat → AttemptOutcome)
    (retries k : Nat) (hk : k ≤ retries)
    (hre : ∀ j, j < k → attemptRetryable (outcomes j) = true)
    (hstop : attemptRetryable (outcomes k) = false ∨ k = retries) :
    postJsonWithRetry outcomes retries
      = (attemptResult (outcomes k), (List.range k).map (fun j => 800 * 2 ^ j)) ∧
    ∀ i, 1 ≤ i → i ≤ k →
      (postJsonWithRetry outcomes retries).2[i - 1]? = some (800 * 2 ^ (i - 1)) := by
  have h := postJsonWithRetry_spec outcomes retries k hk hre hstop
  refine ⟨h, ?_⟩
  intro i h1 h2
  rw [h]
  rw [List.getElem?_map, List.getElem?_range (by omega : i - 1 < k)]
  rfl

/-- C3 witness: two retryable attempts (a 503 and a transport error) then a
success, with retry budget 3: the loop returns the third attempt's response
and waited 800 then 1600 units. -/
theorem retrier_first_terminal_and_backoff_witness :
    postJsonWithRetry sampleOutcomes 3
      = (attemptResult (sampleOutcomes 2), (List.range 2).map (fun j => 800 * 2 ^ j)) ∧
    ∀ i, 1 ≤ i → i ≤ 2 →
      (postJsonWithRetry sampleOutcomes 3).2[i - 1]? = some (800 * 2 ^ (i - 1)) :=
  retrier_first_terminal_and_backoff sampleOutcomes 3 2 (by omega)
    (by decide) (by decide)

/-- C1 (amended): an HTTP 200 generate-content response whose text field is
missing, empty or whitespace-only is treated as a failure — generateContent
never returns a success for it — but the resulting empty-response error is
classified like any other generation error, so whenever its message carries
none of the not-found markers the selection aborts with that error instead
of continuing to the next candidate. -/
theorem empty_response_fails_and_aborts (env : Upstream) (v : GeminiApiVersion)
    (model : String) (raw : String) (textOpt : Option String)
    (cap rest : List String)
    (hskip : skipsCandidate cap model = false)
    (hfetch : env.genFetch v model generateTimeoutMs 0 = .response 200 raw)
    (hext : env.extractText raw = .ok textOpt)
    (hblank : ∀ t, textOpt = some t → isBlank t = true) :
    generateContent env v model = .error (geminiEmptyMsg v model raw) ∧
    (∀ text, generateContent env v model ≠ .ok text) ∧
    (isGeminiNotFoundOrUnsupported (geminiEmptyMsg v model raw) = false →
      tryCandidates env v cap (model :: rest) = .error (geminiEmptyMsg v model raw)) := by
  have hgc := generateContent_empty env v model raw textOpt hfetch hext hblank
  refine ⟨hgc, ?_, ?_⟩
  · intro text hcontra
    rw [hgc] at hcontra
    exact Except.noConfusion hcontra
  · intro hcl
    rw [tryCandidates_cons_attempt env v cap model rest hskip, hgc]
    simp [handleGenResult, hcl]

/-- C1 counterexample: with the first candidate answering HTTP 200 and an
empty text field, the whole selection aborts with the empty-response error
even though the next candidate would have succeeded — the claim's
"continues to the next candidate rather than aborting" is false on the
code. -/
theorem empty_response_aborts_counterexample :
    generateWithAutoPick envEmptyAbort
      = Except.error "Gemini response is empty (v1beta/alpha). raw=empty-body" ∧
    generateContent envEmptyAbort .v1beta "beta" = Except.ok "hello" :=
  ⟨rfl, rfl⟩

/-- C1 witness: the amended theorem instantiated on the concrete upstream
whose first candidate returns HTTP 200 with a missing text field. -/
theorem empty_response_fails_and_aborts_witness :
    generateContent envEmptyAbort .v1beta "alpha"
      = .error (geminiEmptyMsg .v1beta "alpha" "empty-body") ∧
    (∀ text, generateContent envEmptyAbort .v1beta "alpha" ≠ .ok text) ∧
    (isGeminiNotFoundOrUnsupported (geminiEmptyMsg .v1beta "alpha" "empty-body") = false →
      tryCandidates envEmptyAbort .v1beta ["alpha", "beta"] ["alpha", "beta"]
        = .error (geminiEmptyMsg .v1beta "alpha" "empty-body")) :=
  empty_response_fails_and_aborts envEmptyAbort .v1beta "alpha" "empty-body" none
    ["alpha", "beta"] ["beta"] (by decide) rfl rfl (fun t h => Option.noConfusion h)

/-- C2 (amended): a failed generate-content response is classified by the
substring markers of its error message, not by its status alone: when the
message carries a marker (which a 404 status always does) the selector
continues with the next candidate, and when it carries none — as for a
typical 401 or 403 — the selector aborts the whole selection with that
error. -/
theorem generate_failure_classification (env : Upstream) (v : GeminiApiVersion)
    (cap : List String) (model : String) (rest : List String)
    (status : Nat) (raw : String)
    (hskip : skipsCandidate cap model = false)
    (hfetch : env.genFetch v model generateTimeoutMs 0 = .response status raw)
    (hok : respOk status = false)
    (hnr : isRetryableStatus status = false) :
    generateContent env v model = .error (genFailMsg v model status raw) ∧
    (status = 404 → isGeminiNotFoundOrUnsupported (genFailMsg v model status raw) = true) ∧
    (isGeminiNotFoundOrUnsupported (genFailMsg v model status raw) = true →
      tryCandidates env v cap (model :: rest) = tryCandidates env v cap rest) ∧
    (isGeminiNotFoundOrUnsupported (genFailMsg v model status raw) = false →
      tryCandidates env v cap (model :: rest) = .error (genFailMsg v model status raw)) := by
  have hgc := generateContent_fail_first env v model status raw hfetch hok hnr
  refine ⟨hgc, ?_, ?_, ?_⟩
  · rintro rfl
    exact genFailMsg_404 v model raw
  · intro hcl
    rw [tryCandidates_cons_attempt env v cap model rest hskip, hgc]
    simp [handleGenResult, hcl]
  · intro hcl
    rw [tryCandidates_cons_attempt env v cap model rest hskip, hgc]
    simp [handleGenResult, hcl]

/-- C2 counterexample: a generate-content failure with status 403 whose
body incidentally contains the character sequence ": 404" is classified as
a mismatch, so the selection continues and succeeds on the next candidate —
the claim's "any other error status, in particular 401 or 403, aborts
immediately without further candidates" is false on the code. -/
theorem status403_continues_counterexample :
    envMarker403.genFetch .v1beta "alpha" generateTimeoutMs 0
      = AttemptOutcome.response 403 "quota: 4040 exceeded" ∧
    generateWithAutoPick envMarker403
      = Except.ok ⟨GeminiApiVersion.v1beta, "beta", "hello"⟩ :=
  ⟨rfl, rfl⟩

/-- C2 witness: the amended theorem instantiated on a concrete 403 response
with a marker-free body, which the classifier sends to the abort branch. -/
theorem generate_failure_classification_witness :
    generateContent envAuth403 .v1beta "alpha"
      = .error (genFailMsg .v1beta "alpha" 403 "permission denied") ∧
    (403 = 404 →
      isGeminiNotFoundOrUnsupported (genFailMsg .v1beta "alpha" 403 "permission denied") = true) ∧
    (isGeminiNotFoundOrUnsupported (genFailMsg .v1beta "alpha" 403 "permission denied") = true →
      tryCandidates envAuth403 .v1beta ["alpha"] ["alpha", "beta"]
        = tryCandidates envAuth403 .v1beta ["alpha"] ["beta"]) ∧
    (isGeminiNotFoundOrUnsupported (genFailMsg .v1beta "alpha" 403 "permission denied") = false →
      tryCandidates envAuth403 .v1beta ["alpha"] ["alpha", "beta"]
        = .error (genFailMsg .v1beta "alpha" 403 "permission denied")) :=
  generate_failure_classification envAuth403 .v1beta ["alpha"] "alpha" ["beta"]
    403 "permission denied" (by decide) rfl (by decide) (by decide)

/-- C4: for a duplicate-free catalog, the candidate order is the fixed
preference list filtered to the available names (in preference order)
followed by the remaining available names in catalog order; hence a
preferred name that is available sits strictly before any non-preferred
candidate in the attempt order. -/
theorem candidates_prefer_preferred (available : List String) (p q : String)
    (hnd : available.Nodup) (hp : p ∈ preferredModels) (hpav : p ∈ available)
    (_hq : q ∈ buildCandidates available) (hqnp : q ∉ preferredModels) :
    buildCandidates available
      = preferredModels.filter (fun x => available.contains x)
        ++ available.filter
          (fun a => !((preferredModels.filter (fun x => available.contains x)).contains a)) ∧
    (buildCandidates available).indexOf p < (buildCandidates available).indexOf q := by
  have heq := buildCandidates_eq available hnd
  refine ⟨heq, ?_⟩
  have hpf : p ∈ preferredModels.filter (fun x => available.contains x) :=
    List.mem_filter.mpr ⟨hp, by rw [contains_eq_decide_mem]; simpa using hpav⟩
  have hqf : q ∉ preferredModels.filter (fun x => available.contains x) :=
    fun hqf => hqnp (List.mem_filter.mp hqf).1
  rw [heq, List.indexOf_append_of_mem hpf, List.indexOf_append_of_not_mem hqf]
  have h3 := List.indexOf_lt_length.mpr hpf
  omega

/-- C4 witness: on the catalog [delta, gemini-2.0-flash, echo] the
preferred name gemini-2.0-flash is ranked before the non-preferred
delta. -/
theorem candidates_prefer_preferred_witness :
    buildCandidates sampleCatalogNames
      = preferredModels.filter (fun x => sampleCatalogNames.contains x)
        ++ sampleCatalogNames.filter
          (fun a => !((preferredModels.filter (fun x => sampleCatalogNames.contains x)).contains a)) ∧
    (buildCandidates sampleCatalogNames).indexOf "gemini-2.0-flash"
      < (buildCandidates sampleCatalogNames).indexOf "delta" :=
  candidates_prefer_preferred sampleCatalogNames "gemini-2.0-flash" "delta"
    (by decide) (by decide) (by decide) (by decide) (by decide)

/-- C5: a catalog-listing failure for a version makes the version loop skip
that version with no error (.ok none); in particular when the primary
version's listing fails the whole call reduces to processing the remaining
secondary version — a listing failure alone is never fatal. -/
theorem listing_failure_skips_version (env : Upstream) (v : GeminiApiVersion)
    (msg : String) (h : listModels env v = .error msg) :
    tryVersion env v = .ok none ∧
    (v = .v1beta → generateWithAutoPick env = tryVersions env [.v1]) := by
  have h1 : tryVersion env v = .ok none := by
    unfold tryVersion
    rw [h]
  refine ⟨h1, ?_⟩
  rintro rfl
  have step : generateWithAutoPick env
      = match tryVersion env .v1beta with
        | .error m => .error m
        | .ok (some sel) => .ok sel
        | .ok none => tryVersions env [.v1] := rfl
  rw [step, h1]

/-- C5 witness: the theorem instantiated on an upstream whose primary
listing fails on the network while the secondary version works. -/
theorem listing_failure_skips_version_witness :
    tryVersion envSecondary .v1beta = .ok none ∧
    (GeminiApiVersion.v1beta = .v1beta →
      generateWithAutoPick envSecondary = tryVersions envSecondary [.v1]) :=
  listing_failure_skips_version envSecondary .v1beta "net down" rfl

/-- C6: a catalog entry with no supportedGenerationMethods field is treated
as generate-capable: the predicate accepts it, its bare name is in
generateCapable, the capability filter does not skip it, and the candidate
loop attempts it. -/
theorem missing_methods_field_treated_capable (models : List GeminiModel)
    (name : String) (hm : GeminiModel.mk (some name) none ∈ models) :
    modelSupportsGenerateContent ⟨some name, none⟩ = true ∧
    shortModelName name ∈ generateCapableOf models ∧
    skipsCandidate (generateCapableOf models) (shortModelName name) = false ∧
    (∀ (env : Upstream) (v : GeminiApiVersion) (rest : List String),
      tryCandidates env v (generateCapableOf models) (shortModelName name :: rest)
        = handleGenResult v (shortModelName name)
            (generateContent env v (shortModelName name))
            (tryCandidates env v (generateCapableOf models) rest)) := by
  have hcap : modelSupportsGenerateContent (⟨some name, none⟩ : GeminiModel) = true := rfl
  have hmem := mem_generateCapableOf models ⟨some name, none⟩ name hm rfl hcap
  have hskip := skipsCandidate_of_mem _ _ hmem
  exact ⟨hcap, hmem, hskip, fun env v rest => tryCandidates_cons_attempt env v _ _ rest hskip⟩

/-- C6 witness: the theorem instantiated on a one-entry catalog whose model
has no capability field. -/
theorem missing_methods_field_treated_capable_witness :
    modelSupportsGenerateContent ⟨some "models/plain", none⟩ = true ∧
    shortModelName "models/plain" ∈ generateCapableOf catalogNoMethods ∧
    skipsCandidate (generateCapableOf catalogNoMethods) (shortModelName "models/plain") = false ∧
    tryCandidates idleUpstream .v1beta (generateCapableOf catalogNoMethods)
        (shortModelName "models/plain" :: [])
      = handleGenResult .v1beta (shortModelName "models/plain")
          (generateContent idleUpstream .v1beta (shortModelName "models/plain"))
          (tryCandidates idleUpstream .v1beta (generateCapableOf catalogNoMethods) []) :=
  ⟨(missing_methods_field_treated_capable catalogNoMethods "models/plain" (by decide)).1,
   (missing_methods_field_treated_capable catalogNoMethods "models/plain" (by decide)).2.1,
   (missing_methods_field_treated_capable catalogNoMethods "models/plain" (by decide)).2.2.1,
   (missing_methods_field_treated_capable catalogNoMethods "models/plain" (by decide)).2.2.2
     idleUpstream .v1beta []⟩

/-- C7: the call-site parameters are exactly as specified — generation uses
3 retries with the 30000 ms timeout and listing uses the 15000 ms timeout;
a generate-content call depends only on its own attempts 0 through 3 at
that timeout (up to 4 attempts) plus the text extraction; a listing call
depends only on its single attempt 0 at its timeout plus the body parse,
and even a retryable 503 on that attempt is surfaced at once, never
retried. -/
theorem call_site_budgets :
    (generateRetries = 3 ∧ generateTimeoutMs = 30000 ∧ listTimeoutMs = 15000) ∧
    (∀ (e1 e2 : Upstream) (v : GeminiApiVersion) (m : String),
      (∀ j, j ≤ generateRetries →
        e1.genFetch v m generateTimeoutMs j = e2.genFetch v m generateTimeoutMs j) →
      e1.extractText = e2.extractText →
      generateContent e1 v m = generateContent e2 v m) ∧
    (∀ (e1 e2 : Upstream) (v : GeminiApiVersion),
      e1.listFetch v listTimeoutMs 0 = e2.listFetch v listTimeoutMs 0 →
      e1.parseModels = e2.parseModels →
      listModels e1 v = listModels e2 v) ∧
    (∀ (env : Upstream) (v : GeminiApiVersion) (raw : String),
      env.listFetch v listTimeoutMs 0 = .response 503 raw →
      listModels env v = .error (listFailMsg v 503 raw)) :=
  ⟨⟨rfl, rfl, rfl⟩, generateContent_congr, listModels_congr, listModels_no_retry⟩

/-- C7 witness: the no-retry part instantiated on an upstream whose single
listing attempt answers 503. -/
theorem call_site_budgets_witness :
    listModels envList503 .v1beta = Except.error (listFailMsg .v1beta 503 "busy") :=
  call_site_budgets.2.2.2 envList503 .v1beta "busy" rfl

/-- C8: the selection is a deterministic function of the observed upstream
responses: two runs that observe the same catalog listings, parses,
generation outcomes and extractions select the same (version, model)
pair. -/
theorem selection_deterministic (e1 e2 : Upstream)
    (h1 : e1.listFetch = e2.listFetch) (h2 : e1.parseModels = e2.parseModels)
    (h3 : e1.genFetch = e2.genFetch) (h4 : e1.extractText = e2.extractText) :
    Except.map (fun s => (s.version, s.model)) (generateWithAutoPick e1)
      = Except.map (fun s => (s.version, s.model)) (generateWithAutoPick e2) := by
  have h : e1 = e2 := by
    cases e1
    cases e2
    simp_all
  rw [h]

/-- C8 witness: the theorem instantiated on one concrete upstream observed
twice. -/
theorem selection_deterministic_witness :
    Except.map (fun s => (s.version, s.model)) (generateWithAutoPick envEmptyAbort)
      = Except.map (fun s => (s.version, s.model)) (generateWithAutoPick envEmptyAbort) :=
  selection_deterministic envEmptyAbort envEmptyAbort rfl rfl rfl rfl

/-- C9: when the catalog listing fails for both versions — for any reasons,
including an auth-style non-2xx on which listModels throws — generate fails
with the generic exhaustion message naming the versions checked, not with
either underlying listing error. -/
theorem listing_failures_yield_generic_error (env : Upstream) (m1 m2 : String)
    (h1 : listModels env .v1beta = .error m1)
    (h2 : listModels env .v1 = .error m2) :
    generateWithAutoPick env = .error noWorkingModelMsg ∧
    noWorkingModelMsg = "No working Gemini model found (checked v1beta/v1)." := by
  have t1 : tryVersion env .v1beta = .ok none := by
    unfold tryVersion
    rw [h1]
  have t2 : tryVersion env .v1 = .ok none := by
    unfold tryVersion
    rw [h2]
  constructor
  · have step : generateWithAutoPick env
        = match tryVersion env .v1beta with
          | .error m => .error m
          | .ok (some sel) => .ok sel
          | .ok none =>
            match tryVersion env .v1 with
            | .error m => .error m
            | .ok (some sel) => .ok sel
            | .ok none => Except.error noWorkingModelMsg := rfl
    rw [step, t1, t2]
  · rfl

/-- C9 witness: the theorem instantiated on an upstream whose primary
listing answers 403 (listModels throws the listing error) and whose
secondary listing fails on the network. -/
theorem listing_failures_yield_generic_error_witness :
    generateWithAutoPick envListFailBoth = .error noWorkingModelMsg ∧
    noWorkingModelMsg = "No working Gemini model found (checked v1beta/v1)." :=
  listing_failures_yield_generic_error envListFailBoth
    (listFailMsg .v1beta 403 "key denied") "timeout" rfl rfl

/-- C10: a catalog entry whose supportedGenerationMethods field is present
but an empty array is treated as generate-capable, exactly like a missing
field: the predicate accepts it, its bare name is in generateCapable, the
capability filter does not skip it, and the candidate loop attempts it. -/
theorem empty_methods_list_treated_capable (models : List GeminiModel)
    (name : String) (hm : GeminiModel.mk (some name) (some []) ∈ models) :
    modelSupportsGenerateContent ⟨some name, some []⟩ = true ∧
    shortModelName name ∈ generateCapableOf models ∧
    skipsCandidate (generateCapableOf models) (shortModelName name) = false ∧
    (∀ (env : Upstream) (v : GeminiApiVersion) (rest : List String),
      tryCandidates env v (generateCapableOf models) (shortModelName name :: rest)
        = handleGenResult v (shortModelName name)
            (generateContent env v (shortModelName name))
            (tryCandidates env v (generateCapableOf models) rest)) := by
  have hcap : modelSupportsGenerateContent (⟨some name, some []⟩ : GeminiModel) = true := rfl
  have hmem := mem_generateCapableOf models ⟨some name, some []⟩ name hm rfl hcap
  have hskip := skipsCandidate_of_mem _ _ hmem
  exact ⟨hcap, hmem, hskip, fun env v rest => tryCandidates_cons_attempt env v _ _ rest hskip⟩

/-- C10 witness: the theorem instantiated on a one-entry catalog whose
model advertises an empty capability array. -/
theorem empty_methods_list_treated_capable_witness :
    modelSupportsGenerateContent ⟨some "models/bare", some []⟩ = true ∧
    shortModelName "models/bare" ∈ generateCapableOf catalogEmptyMethods ∧
    skipsCandidate (generateCapableOf catalogEmptyMethods) (shortModelName "models/bare") = false ∧
    tryCandidates idleUpstream .v1beta (generateCapableOf catalogEmptyMethods)
        (shortModelName "models/bare" :: [])
      = handleGenResult .v1beta (shortModelName "models/bare")
          (generateContent idleUpstream .v1beta (shortModelName "models/bare"))
          (tryCandidates idleUpstream .v1beta (generateCapableOf catalogEmptyMethods) []) :=
  ⟨(empty_methods_list_treated_capable catalogEmptyMethods "models/bare" (by decide)).1,
   (empty_methods_list_treated_capable catalogEmptyMethods "models/bare" (by decide)).2.1,
   (empty_methods_list_treated_capable catalogEmptyMethods "models/bare" (by decide)).2.2.1,
   (empty_methods_list_treated_capable catalogEmptyMethods "models/bare" (by decide)).2.2.2
     idleUpstream .v1beta []⟩

end AnswerQuestion
